import Mathlib

/-!
# Verification of the firecrown/tjpcosmo parameter-mapping core

Shallow embedding of:
* `firecrown/connector/mapping.py` — `require_type`/`require_float`/
  `require_string`, the `PyCCLCosmologyConstants` record constructor and
  `from_cosmosis_camb`;
* `tjpcosmo/models/twopoint/calculator.py` — `convert_cosmobase_to_ccl`
  and `TwoPointTheoryCalculator.setup_sources`;
* `firecrown/likelihood/gauss_family/student_t.py` — `StudentT`;
* `firecrown/parser.py` — the sampled-parameter reduction loop of `parse`.

Python floats are modelled as `ℚ`, Python runtime values as `PyVal`
(a float, a string, an int, or `None`), Python exceptions as the
`PyErr` inductive, and fallible code as `Except PyErr _`.
-/

/-- A Python runtime value, as far as the mapping module inspects one:
a float, a string, an int, or `None`.  `require_type` checks the exact
runtime type (`type(val) is typ`), so the constructors are disjoint. -/
inductive PyVal where
  | float (q : ℚ)
  | str (s : String)
  | int (n : ℤ)
  | none
  deriving DecidableEq

/-- Python exceptions raised by the embedded code: `TypeError(msg)`,
`ValueError(msg)` and `KeyError(key)` (a `dict[key]` miss). -/
inductive PyErr where
  | typeError (msg : String)
  | valueError (msg : String)
  | keyError (key : String)
  deriving DecidableEq

/-- `require_type(val, float, "float")` from mapping.py: returns the float
payload or raises `TypeError("float value is required")`. -/
def require_float (val : PyVal) : Except PyErr ℚ :=
  match val with
  | .float q => .ok q
  | _ => .error (.typeError "float value is required")

/-- `require_type(val, str, "string")` from mapping.py: returns the string
payload or raises `TypeError("string value is required")`. -/
def require_string (val : PyVal) : Except PyErr String :=
  match val with
  | .str s => .ok s
  | _ => .error (.typeError "string value is required")

/-- The state a successful `PyCCLCosmologyConstants.__init__` leaves behind
(mapping.py).  `A_s`/`sigma8` are `Option` because the Python attributes are
set to `None` in the branch not taken; `Omega_g` is always set to `None`. -/
structure PyCCLCosmologyConstants where
  Omega_c : ℚ
  Omega_b : ℚ
  h : ℚ
  A_s : Option ℚ
  sigma8 : Option ℚ
  n_s : ℚ
  Omega_k : ℚ
  Omega_g : Option ℚ
  Neff : ℚ
  m_nu : ℚ
  m_nu_type : String
  w0 : ℚ
  wa : ℚ
  T_CMB : ℚ
  deriving DecidableEq

/-- `PyCCLCosmologyConstants.__init__` (mapping.py): typechecks `Omega_c`,
`Omega_b`, `h`; raises `ValueError` when both `A_s` and `sigma8` are
non-`None`; when `sigma8` is `None` it runs `require_float(A_s)` (so a
missing amplitude raises the float `TypeError`), otherwise it stores
`sigma8` and sets `A_s = None`; then typechecks the remaining fields.
Arguments appear in the Python keyword order; `A_s` and `sigma8` default
to `None` at call sites that omit them. -/
def PyCCLCosmologyConstants.init (Omega_c Omega_b h A_s sigma8 n_s Omega_k
    Neff m_nu m_nu_type w0 wa T_CMB : PyVal) :
    Except PyErr PyCCLCosmologyConstants := do
  let oc ← require_float Omega_c
  let ob ← require_float Omega_b
  let hv ← require_float h
  if A_s ≠ PyVal.none ∧ sigma8 ≠ PyVal.none then
    throw (PyErr.valueError "Exactly one of A_s and sigma8 must be supplied")
  else

  let amps : Option ℚ × Option ℚ ←
    if sigma8 = PyVal.none then do
      let av ← require_float A_s
      pure (some av, Option.none)
    else do
      let sv ← require_float sigma8
      pure (Option.none, some sv)
  let nsv ← require_float n_s
  let okv ← require_float Omega_k
  let neffv ← require_float Neff
  let mnuv ← require_float m_nu
  let mnt ← require_string m_nu_type
  let w0v ← require_float w0
  let wav ← require_float wa
  let tcmbv ← require_float T_CMB
  pure { Omega_c := oc, Omega_b := ob, h := hv, A_s := amps.1,
         sigma8 := amps.2, n_s := nsv, Omega_k := okv, Omega_g := Option.none,
         Neff := neffv, m_nu := mnuv, m_nu_type := mnt, w0 := w0v,
         wa := wav, T_CMB := tcmbv }

/-- Association-list model of the CosmoSIS parameter dict (string keys,
float values, no duplicate keys in a Python dict). -/
def dictLookup : List (String × ℚ) → String → Option ℚ
  | [], _ => Option.none
  | (k', v) :: rest, k => if k = k' then some v else dictLookup rest k

/-- Python `d[k]`: the value, or `KeyError(k)`. -/
def dictGet (ps : List (String × ℚ)) (k : String) : Except PyErr ℚ :=
  match dictLookup ps k with
  | some v => .ok v
  | Option.none => .error (.keyError k)

/-- Python `d.get(k, default)`. -/
def dictGetD (ps : List (String × ℚ)) (k : String) (d : ℚ) : ℚ :=
  match dictLookup ps k with
  | some v => v
  | Option.none => d

/-- `from_cosmosis_camb` (mapping.py): reads the raw CosmoSIS/CAMB keys in
source order, defaults `delta_neff` to `0.0` via `.get`, converts
`m_nu = omega_nu * h * h * 93.14`, flips the sign of `wa`, and constructs a
`PyCCLCosmologyConstants` with `A_s` left at its `None` default,
`m_nu_type = "normal"` and the literal `T_CMB = 2.7255`. -/
def from_cosmosis_camb (cosmosis_params : List (String × ℚ)) :
    Except PyErr PyCCLCosmologyConstants := do
  let Omega_c ← dictGet cosmosis_params "omega_c"
  let Omega_b ← dictGet cosmosis_params "omega_b"
  let h ← dictGet cosmosis_params "h0"
  let sigma8 ← dictGet cosmosis_params "sigma_8"
  let n_s ← dictGet cosmosis_params "n_s"
  let Omega_k ← dictGet cosmosis_params "omega_k"
  let Neff := dictGetD cosmosis_params "delta_neff" 0 + 3.046
  let omega_nu ← dictGet cosmosis_params "omega_nu"
  let m_nu := omega_nu * h * h * 93.14
  let w0 ← dictGet cosmosis_params "w"
  let wa ← dictGet cosmosis_params "wa"
  PyCCLCosmologyConstants.init (.float Omega_c) (.float Omega_b) (.float h)
    PyVal.none (.float sigma8) (.float n_s) (.float Omega_k) (.float Neff)
    (.float m_nu) (.str "normal") (.float w0) (.float (-wa)) (.float 2.7255)

/-- When every argument has the shape `from_cosmosis_camb` passes
(floats everywhere, `A_s = None`, `sigma8` a float, `m_nu_type` a string),
`__init__` succeeds and the record's fields are exactly the payloads. -/
theorem init_floats (oc ob hv s8 ns okv neff mnu w0v wav tcmb : ℚ)
    (mnt : String) :
    PyCCLCosmologyConstants.init (.float oc) (.float ob) (.float hv)
      PyVal.none (.float s8) (.float ns) (.float okv) (.float neff)
      (.float mnu) (.str mnt) (.float w0v) (.float wav) (.float tcmb) =
    .ok { Omega_c := oc, Omega_b := ob, h := hv, A_s := Option.none,
          sigma8 := some s8, n_s := ns, Omega_k := okv,
          Omega_g := Option.none, Neff := neff, m_nu := mnu,
          m_nu_type := mnt, w0 := w0v, wa := wav, T_CMB := tcmb } := rfl

/-- Destructuring a successful `Except` bind. -/
theorem exceptBind_ok {ε α β : Type} (x : Except ε α) (f : α → Except ε β)
    (r : β) (h : x >>= f = .ok r) : ∃ a, x = .ok a ∧ f a = .ok r := by
  cases x with
  | error e => simp [Bind.bind, Except.bind] at h
  | ok a => exact ⟨a, rfl, by simpa [Bind.bind, Except.bind] using h⟩

/-- The end-to-end CosmoSIS/CAMB parameter block of the spec's scenario. -/
def scenarioParams : List (String × ℚ) :=
  [("omega_c", 0.25), ("omega_b", 0.05), ("h0", 0.7), ("sigma_8", 0.8),
   ("n_s", 0.96), ("omega_k", 0), ("w", -1), ("wa", 0), ("omega_nu", 0)]

/-- Evaluating `from_cosmosis_camb` on the scenario block. -/
theorem scenario_eval :
    from_cosmosis_camb scenarioParams =
    .ok { Omega_c := 0.25, Omega_b := 0.05, h := 0.7, A_s := Option.none,
          sigma8 := some 0.8, n_s := 0.96, Omega_k := 0,
          Omega_g := Option.none, Neff := 3.046, m_nu := 0,
          m_nu_type := "normal", w0 := -1, wa := 0, T_CMB := 2.7255 } := by
  simp [from_cosmosis_camb, scenarioParams, dictGet, dictGetD,
    dictLookup, init_floats, Bind.bind, Except.bind]

/-- C2: on the scenario block `{omega_c: 0.25, omega_b: 0.05, h0: 0.7,
sigma_8: 0.8, n_s: 0.96, omega_k: 0.0, w: -1.0, wa: 0.0, omega_nu: 0.0}`,
`from_cosmosis_camb` succeeds and the record has `Neff = 3.046`,
`m_nu = 0.0`, `wa = 0.0` and `T_CMB = 2.7255`. -/
theorem from_cosmosis_camb_scenario :
    ∃ r, from_cosmosis_camb scenarioParams = .ok r ∧
      r.Neff = 3.046 ∧ r.m_nu = 0 ∧ r.wa = 0 ∧ r.T_CMB = 2.7255 :=
  ⟨_, scenario_eval, rfl, rfl, rfl, rfl⟩

/-- C1 counterexample: constructing with NEITHER amplitude (all other
arguments valid) raises the generic float `TypeError`, not the dedicated
amplitude `ValueError` — so the "neither" case does not raise an
`AmbiguousAmplitudeError`-style error. -/
theorem init_neither_counterexample :
    PyCCLCosmologyConstants.init (.float 0.25) (.float 0.05) (.float 0.7)
      PyVal.none PyVal.none (.float 0.96) (.float 0) (.float 3.046)
      (.float 0) (.str "normal") (.float (-1)) (.float 0) (.float 2.7255) =
      .error (.typeError "float value is required") ∧
    PyErr.typeError "float value is required" ≠
      PyErr.valueError "Exactly one of A_s and sigma8 must be supplied" :=
  ⟨rfl, by decide⟩

/-- A record of the shape produced by a successful construction with
`sigma8` supplied and `A_s` omitted. -/
def sigma8OnlyRecord : PyCCLCosmologyConstants :=
  { Omega_c := 1, Omega_b := 1, h := 1, A_s := Option.none,
    sigma8 := some 3, n_s := 1, Omega_k := 1, Omega_g := Option.none,
    Neff := 1, m_nu := 1, m_nu_type := "normal", w0 := 1, wa := 1,
    T_CMB := 1 }

/-- C1 (amended): supplying both amplitudes (with the earlier `Omega_c`,
`Omega_b`, `h` float checks passing) raises the dedicated
`ValueError("Exactly one of A_s and sigma8 must be supplied")`; supplying
neither makes construction fail too, but with the generic
`TypeError("float value is required")`; and every successfully constructed
record carries exactly one non-`None` amplitude. -/
theorem init_amplitude_exclusivity (Omega_c Omega_b h A_s sigma8 n_s Omega_k
    Neff m_nu m_nu_type w0 wa T_CMB : PyVal) :
    ((A_s ≠ PyVal.none ∧ sigma8 ≠ PyVal.none ∧ (∃ a, Omega_c = .float a) ∧
        (∃ b, Omega_b = .float b) ∧ (∃ c, h = .float c)) →
      PyCCLCosmologyConstants.init Omega_c Omega_b h A_s sigma8 n_s Omega_k
          Neff m_nu m_nu_type w0 wa T_CMB =
        .error (.valueError "Exactly one of A_s and sigma8 must be supplied"))
    ∧ ((A_s = PyVal.none ∧ sigma8 = PyVal.none) →
      PyCCLCosmologyConstants.init Omega_c Omega_b h A_s sigma8 n_s Omega_k
          Neff m_nu m_nu_type w0 wa T_CMB =
        .error (.typeError "float value is required"))
    ∧ (∀ r, PyCCLCosmologyConstants.init Omega_c Omega_b h A_s sigma8 n_s
          Omega_k Neff m_nu m_nu_type w0 wa T_CMB = .ok r →
        (r.A_s.isSome ∧ r.sigma8 = Option.none) ∨
        (r.A_s = Option.none ∧ r.sigma8.isSome)) := by
  refine ⟨?_, ?_, ?_⟩
  · rintro ⟨hA, hS, ⟨a, rfl⟩, ⟨b, rfl⟩, ⟨c, rfl⟩⟩
    simp [PyCCLCosmologyConstants.init, require_float, Bind.bind, Except.bind,
      hA, hS, throw, throwThe, MonadExceptOf.throw]
  · rintro ⟨rfl, rfl⟩
    cases Omega_c <;> cases Omega_b <;> cases h <;>
      simp [PyCCLCosmologyConstants.init, require_float, Bind.bind,
        Except.bind, throw, throwThe, MonadExceptOf.throw]
  · intro r hr
    unfold PyCCLCosmologyConstants.init at hr
    obtain ⟨oc, -, hr⟩ := exceptBind_ok _ _ _ hr
    obtain ⟨ob, -, hr⟩ := exceptBind_ok _ _ _ hr
    obtain ⟨hv, -, hr⟩ := exceptBind_ok _ _ _ hr
    by_cases hboth : A_s ≠ PyVal.none ∧ sigma8 ≠ PyVal.none
    · rw [if_pos hboth] at hr
      simp [throw, throwThe, MonadExceptOf.throw] at hr
    · rw [if_neg hboth] at hr
      by_cases hs : sigma8 = PyVal.none
      · rw [if_pos hs] at hr
        obtain ⟨av, -, hr⟩ := exceptBind_ok _ _ _ hr
        obtain ⟨y, hy, hr⟩ := exceptBind_ok _ _ _ hr
        simp only [pure, Except.pure, Except.ok.injEq] at hy
        subst hy
        obtain ⟨nsv, -, hr⟩ := exceptBind_ok _ _ _ hr
        obtain ⟨okv, -, hr⟩ := exceptBind_ok _ _ _ hr
        obtain ⟨neffv, -, hr⟩ := exceptBind_ok _ _ _ hr
        obtain ⟨mnuv, -, hr⟩ := exceptBind_ok _ _ _ hr
        obtain ⟨mnt, -, hr⟩ := exceptBind_ok _ _ _ hr
        obtain ⟨w0v, -, hr⟩ := exceptBind_ok _ _ _ hr
        obtain ⟨wav, -, hr⟩ := exceptBind_ok _ _ _ hr
        obtain ⟨tcmbv, -, hr⟩ := exceptBind_ok _ _ _ hr
        simp only [pure, Except.pure, Except.ok.injEq] at hr
        subst hr
        left
        exact ⟨rfl, rfl⟩
      · rw [if_neg hs] at hr
        obtain ⟨sv, -, hr⟩ := exceptBind_ok _ _ _ hr
        obtain ⟨y, hy, hr⟩ := exceptBind_ok _ _ _ hr
        simp only [pure, Except.pure, Except.ok.injEq] at hy
        subst hy
        obtain ⟨nsv, -, hr⟩ := exceptBind_ok _ _ _ hr
        obtain ⟨okv, -, hr⟩ := exceptBind_ok _ _ _ hr
        obtain ⟨neffv, -, hr⟩ := exceptBind_ok _ _ _ hr
        obtain ⟨mnuv, -, hr⟩ := exceptBind_ok _ _ _ hr
        obtain ⟨mnt, -, hr⟩ := exceptBind_ok _ _ _ hr
        obtain ⟨w0v, -, hr⟩ := exceptBind_ok _ _ _ hr
        obtain ⟨wav, -, hr⟩ := exceptBind_ok _ _ _ hr
        obtain ⟨tcmbv, -, hr⟩ := exceptBind_ok _ _ _ hr
        simp only [pure, Except.pure, Except.ok.injEq] at hr
        subst hr
        right
        exact ⟨rfl, rfl⟩

/-- Witness for `init_amplitude_exclusivity` at concrete arguments. -/
theorem init_amplitude_exclusivity_witness :
    (PyCCLCosmologyConstants.init (.float 1) (.float 1) (.float 1) (.float 2)
      (.float 3) (.float 1) (.float 1) (.float 1) (.float 1) (.str "normal")
      (.float 1) (.float 1) (.float 1) =
        .error (.valueError "Exactly one of A_s and sigma8 must be supplied"))
    ∧ (PyCCLCosmologyConstants.init (.float 1) (.float 1) (.float 1)
      PyVal.none PyVal.none (.float 1) (.float 1) (.float 1) (.float 1)
      (.str "normal") (.float 1) (.float 1) (.float 1) =
        .error (.typeError "float value is required"))
    ∧ ((sigma8OnlyRecord.A_s.isSome ∧ sigma8OnlyRecord.sigma8 = Option.none) ∨
       (sigma8OnlyRecord.A_s = Option.none ∧ sigma8OnlyRecord.sigma8.isSome)) :=
  ⟨(init_amplitude_exclusivity _ _ _ _ _ _ _ _ _ _ _ _ _).1
      ⟨by decide, by decide, ⟨1, rfl⟩, ⟨1, rfl⟩, ⟨1, rfl⟩⟩,
   (init_amplitude_exclusivity _ _ _ _ _ _ _ _ _ _ _ _ _).2.1 ⟨rfl, rfl⟩,
   (init_amplitude_exclusivity (.float 1) (.float 1) (.float 1) PyVal.none
      (.float 3) (.float 1) (.float 1) (.float 1) (.float 1) (.str "normal")
      (.float 1) (.float 1) (.float 1)).2.2 sigma8OnlyRecord rfl⟩

/-- A successful `dictGet` means the key is present. -/
theorem dictGet_ok {ps : List (String × ℚ)} {k : String} {v : ℚ}
    (h : dictGet ps k = .ok v) : dictLookup ps k = some v := by
  cases hl : dictLookup ps k with
  | none => rw [dictGet, hl] at h; exact absurd h (by simp)
  | some a => simp only [dictGet, hl, Except.ok.injEq] at h; rw [h]

/-- Characterization of a successful `from_cosmosis_camb` run: all nine
required raw keys were present and the record is built from them by the
source's conversion rules. -/
theorem from_cosmosis_camb_ok_char (ps : List (String × ℚ))
    (r : PyCCLCosmologyConstants) (h : from_cosmosis_camb ps = .ok r) :
    ∃ oc ob hv s8 ns okv onu w0v wav,
      dictLookup ps "omega_c" = some oc ∧ dictLookup ps "omega_b" = some ob ∧
      dictLookup ps "h0" = some hv ∧ dictLookup ps "sigma_8" = some s8 ∧
      dictLookup ps "n_s" = some ns ∧ dictLookup ps "omega_k" = some okv ∧
      dictLookup ps "omega_nu" = some onu ∧ dictLookup ps "w" = some w0v ∧
      dictLookup ps "wa" = some wav ∧
      r = { Omega_c := oc, Omega_b := ob, h := hv, A_s := Option.none,
            sigma8 := some s8, n_s := ns, Omega_k := okv,
            Omega_g := Option.none,
            Neff := dictGetD ps "delta_neff" 0 + 3.046,
            m_nu := onu * hv * hv * 93.14, m_nu_type := "normal",
            w0 := w0v, wa := -wav, T_CMB := 2.7255 } := by
  unfold from_cosmosis_camb at h
  obtain ⟨oc, hoc, h⟩ := exceptBind_ok _ _ _ h
  obtain ⟨ob, hob, h⟩ := exceptBind_ok _ _ _ h
  obtain ⟨hv, hhv, h⟩ := exceptBind_ok _ _ _ h
  obtain ⟨s8, hs8, h⟩ := exceptBind_ok _ _ _ h
  obtain ⟨ns, hns, h⟩ := exceptBind_ok _ _ _ h
  obtain ⟨okv, hokv, h⟩ := exceptBind_ok _ _ _ h
  obtain ⟨onu, honu, h⟩ := exceptBind_ok _ _ _ h
  obtain ⟨w0v, hw0v, h⟩ := exceptBind_ok _ _ _ h
  obtain ⟨wav, hwav, h⟩ := exceptBind_ok _ _ _ h
  rw [init_floats, Except.ok.injEq] at h
  exact ⟨oc, ob, hv, s8, ns, okv, onu, w0v, wav, dictGet_ok hoc,
    dictGet_ok hob, dictGet_ok hhv, dictGet_ok hs8, dictGet_ok hns,
    dictGet_ok hokv, dictGet_ok honu, dictGet_ok hw0v, dictGet_ok hwav,
    h.symm⟩

/-- C4: for every accepted input, `Neff` is the raw `delta_neff` value
(defaulted to `0.0` when the key is absent) plus the baseline `3.046`;
in particular an input carrying `delta_neff = 0.0` yields `Neff = 3.046`
exactly. -/
theorem from_cosmosis_camb_neff (ps : List (String × ℚ))
    (r : PyCCLCosmologyConstants) (h : from_cosmosis_camb ps = .ok r) :
    r.Neff = dictGetD ps "delta_neff" 0 + 3.046 ∧
    (dictLookup ps "delta_neff" = some 0 → r.Neff = 3.046) := by
  obtain ⟨oc, ob, hv, s8, ns, okv, onu, w0v, wav, -, -, -, -, -, -, -, -, -,
    hr⟩ := from_cosmosis_camb_ok_char ps r h
  subst hr
  refine ⟨rfl, fun hd => ?_⟩
  simp [dictGetD, hd]

/-- The scenario block with an explicit `delta_neff = 0.0` entry. -/
def scenarioParamsDelta : List (String × ℚ) :=
  ("delta_neff", 0) :: scenarioParams

/-- The record produced from `scenarioParamsDelta`. -/
def scenarioRecord : PyCCLCosmologyConstants :=
  { Omega_c := 0.25, Omega_b := 0.05, h := 0.7, A_s := Option.none,
    sigma8 := some 0.8, n_s := 0.96, Omega_k := 0, Omega_g := Option.none,
    Neff := 3.046, m_nu := 0, m_nu_type := "normal", w0 := -1, wa := 0,
    T_CMB := 2.7255 }

/-- Evaluating `from_cosmosis_camb` on the block with `delta_neff = 0.0`. -/
theorem scenario_delta_eval :
    from_cosmosis_camb scenarioParamsDelta = .ok scenarioRecord := by
  simp [from_cosmosis_camb, scenarioParamsDelta, scenarioParams, dictGet,
    dictGetD, dictLookup, init_floats, Bind.bind, Except.bind, scenarioRecord]

/-- Witness for `from_cosmosis_camb_neff`: `delta_neff = 0.0` gives
`Neff = 3.046` on a concrete block. -/
theorem from_cosmosis_camb_neff_witness : scenarioRecord.Neff = 3.046 :=
  (from_cosmosis_camb_neff scenarioParamsDelta scenarioRecord
    scenario_delta_eval).2 (by decide)

/-- Modelled from the spec: the reverse-direction CosmoSIS mapper
(`to_<framework>`) is not part of the embedded sources; per the spec's
round-trip law it applies the documented `wa` sign flip when translating
the reference record's `wa` back into the CosmoSIS convention. -/
def to_cosmosis_camb_wa (wa : ℚ) : ℚ := -wa

/-- C5: for every accepted input, the record's `wa` is the negation of the
raw `"wa"` value, and mapping back into the CosmoSIS convention recovers
the original raw value. -/
theorem from_cosmosis_camb_wa_sign (ps : List (String × ℚ))
    (r : PyCCLCosmologyConstants) (h : from_cosmosis_camb ps = .ok r) :
    ∃ rawwa, dictLookup ps "wa" = some rawwa ∧ r.wa = -rawwa ∧
      to_cosmosis_camb_wa r.wa = rawwa := by
  obtain ⟨oc, ob, hv, s8, ns, okv, onu, w0v, wav, -, -, -, -, -, -, -, -,
    hwa, hr⟩ := from_cosmosis_camb_ok_char ps r h
  subst hr
  exact ⟨wav, hwa, rfl, by simp [to_cosmosis_camb_wa]⟩

/-- The scenario block with the framework-side value `wa = -0.1`. -/
def waSignParams : List (String × ℚ) :=
  [("omega_c", 0.25), ("omega_b", 0.05), ("h0", 0.7), ("sigma_8", 0.8),
   ("n_s", 0.96), ("omega_k", 0), ("w", -1), ("wa", -0.1), ("omega_nu", 0)]

/-- The record produced from `waSignParams`: `wa` comes out as `0.1`. -/
def waSignRecord : PyCCLCosmologyConstants :=
  { Omega_c := 0.25, Omega_b := 0.05, h := 0.7, A_s := Option.none,
    sigma8 := some 0.8, n_s := 0.96, Omega_k := 0, Omega_g := Option.none,
    Neff := 3.046, m_nu := 0, m_nu_type := "normal", w0 := -1, wa := 0.1,
    T_CMB := 2.7255 }

/-- Evaluating `from_cosmosis_camb` on the `wa = -0.1` block. -/
theorem wa_sign_eval : from_cosmosis_camb waSignParams = .ok waSignRecord := by
  simp [from_cosmosis_camb, waSignParams, dictGet, dictGetD, dictLookup,
    init_floats, Bind.bind, Except.bind, waSignRecord]

/-- Witness for `from_cosmosis_camb_wa_sign` on the `wa = -0.1` block. -/
theorem from_cosmosis_camb_wa_sign_witness :
    ∃ rawwa, dictLookup waSignParams "wa" = some rawwa ∧
      waSignRecord.wa = -rawwa ∧ to_cosmosis_camb_wa waSignRecord.wa = rawwa :=
  from_cosmosis_camb_wa_sign waSignParams waSignRecord wa_sign_eval

/-- The raw keys `from_cosmosis_camb` reads with `dict[key]` (a miss is a
`KeyError`); `delta_neff` is NOT among them — it is read with
`.get("delta_neff", 0.0)`. -/
def requiredCosmosisKeys : List String :=
  ["omega_c", "omega_b", "h0", "sigma_8", "n_s", "omega_k", "omega_nu",
   "w", "wa"]

/-- Totality of `from_cosmosis_camb` over float-valued blocks: either some
required key is missing and the run stops with that `KeyError`, or all nine
are present and the run succeeds. -/
theorem from_cosmosis_camb_total (ps : List (String × ℚ)) :
    (∃ k, k ∈ requiredCosmosisKeys ∧ dictLookup ps k = Option.none ∧
      from_cosmosis_camb ps = .error (.keyError k)) ∨
    ((∀ k ∈ requiredCosmosisKeys, (dictLookup ps k).isSome) ∧
      ∃ r, from_cosmosis_camb ps = .ok r) := by
  cases h1 : dictLookup ps "omega_c" with
  | none =>
    exact Or.inl ⟨"omega_c", by simp [requiredCosmosisKeys], h1,
      by simp [from_cosmosis_camb, dictGet, h1, Bind.bind, Except.bind]⟩
  | some v1 =>
  cases h2 : dictLookup ps "omega_b" with
  | none =>
    exact Or.inl ⟨"omega_b", by simp [requiredCosmosisKeys], h2,
      by simp [from_cosmosis_camb, dictGet, h1, h2, Bind.bind, Except.bind]⟩
  | some v2 =>
  cases h3 : dictLookup ps "h0" with
  | none =>
    exact Or.inl ⟨"h0", by simp [requiredCosmosisKeys], h3,
      by simp [from_cosmosis_camb, dictGet, h1, h2, h3, Bind.bind,
        Except.bind]⟩
  | some v3 =>
  cases h4 : dictLookup ps "sigma_8" with
  | none =>
    exact Or.inl ⟨"sigma_8", by simp [requiredCosmosisKeys], h4,
      by simp [from_cosmosis_camb, dictGet, h1, h2, h3, h4, Bind.bind,
        Except.bind]⟩
  | some v4 =>
  cases h5 : dictLookup ps "n_s" with
  | none =>
    exact Or.inl ⟨"n_s", by simp [requiredCosmosisKeys], h5,
      by simp [from_cosmosis_camb, dictGet, h1, h2, h3, h4, h5, Bind.bind,
        Except.bind]⟩
  | some v5 =>
  cases h6 : dictLookup ps "omega_k" with
  | none =>
    exact Or.inl ⟨"omega_k", by simp [requiredCosmosisKeys], h6,
      by simp [from_cosmosis_camb, dictGet, h1, h2, h3, h4, h5, h6,
        Bind.bind, Except.bind]⟩
  | some v6 =>
  cases h7 : dictLookup ps "omega_nu" with
  | none =>
    exact Or.inl ⟨"omega_nu", by simp [requiredCosmosisKeys], h7,
      by simp [from_cosmosis_camb, dictGet, h1, h2, h3, h4, h5, h6, h7,
        Bind.bind, Except.bind]⟩
  | some v7 =>
  cases h8 : dictLookup ps "w" with
  | none =>
    exact Or.inl ⟨"w", by simp [requiredCosmosisKeys], h8,
      by simp [from_cosmosis_camb, dictGet, h1, h2, h3, h4, h5, h6, h7, h8,
        Bind.bind, Except.bind]⟩
  | some v8 =>
  cases h9 : dictLookup ps "wa" with
  | none =>
    exact Or.inl ⟨"wa", by simp [requiredCosmosisKeys], h9,
      by simp [from_cosmosis_camb, dictGet, h1, h2, h3, h4, h5, h6, h7, h8,
        h9, Bind.bind, Except.bind]⟩
  | some v9 =>
  refine Or.inr ⟨?_, ?_⟩
  · intro k hk
    simp only [requiredCosmosisKeys, List.mem_cons,
      List.not_mem_nil, or_false] at hk
    rcases hk with rfl | rfl | rfl | rfl | rfl | rfl | rfl | rfl | rfl <;>
      simp [h1, h2, h3, h4, h5, h6, h7, h8, h9]
  · have hrun : from_cosmosis_camb ps = .ok
        { Omega_c := v1, Omega_b := v2, h := v3, A_s := Option.none,
          sigma8 := some v4, n_s := v5, Omega_k := v6, Omega_g := Option.none,
          Neff := dictGetD ps "delta_neff" 0 + 3.046,
          m_nu := v7 * v3 * v3 * 93.14, m_nu_type := "normal",
          w0 := v8, wa := -v9, T_CMB := 2.7255 } := by
      simp [from_cosmosis_camb, dictGet, h1, h2, h3, h4, h5, h6, h7, h8, h9,
        Bind.bind, Except.bind, init_floats]
    exact ⟨_, hrun⟩

/-- C6 counterexample: the scenario block has no `delta_neff` key, yet
`from_cosmosis_camb` succeeds — silently substituting the default `0.0`
(so `Neff = 3.046`) instead of failing with a `KeyError`; the silent
default is thus not limited to the `T_CMB` placeholder. -/
theorem delta_neff_silent_default_counterexample :
    dictLookup scenarioParams "delta_neff" = Option.none ∧
    from_cosmosis_camb scenarioParams ≠ .error (.keyError "delta_neff") ∧
    ∃ r, from_cosmosis_camb scenarioParams = .ok r ∧ r.Neff = 3.046 :=
  ⟨by decide, by rw [scenario_eval]; simp, ⟨_, scenario_eval, rfl⟩⟩

/-- C6 (amended): a block missing one of the nine `dict[key]`-read keys
(`omega_c`, `omega_b`, `h0`, `sigma_8`, `n_s`, `omega_k`, `omega_nu`, `w`,
`wa`) fails with a `KeyError` naming a missing key, and a block with all
nine present succeeds; the silent defaults are the `T_CMB = 2.7255`
placeholder AND `delta_neff = 0.0`. -/
theorem from_cosmosis_camb_missing_keys (ps : List (String × ℚ)) :
    ((∃ k ∈ requiredCosmosisKeys, dictLookup ps k = Option.none) →
      ∃ k', k' ∈ requiredCosmosisKeys ∧ dictLookup ps k' = Option.none ∧
        from_cosmosis_camb ps = .error (.keyError k'))
    ∧ ((∀ k ∈ requiredCosmosisKeys, (dictLookup ps k).isSome) →
      ∃ r, from_cosmosis_camb ps = .ok r) := by
  rcases from_cosmosis_camb_total ps with ⟨k, hk, hnone, herr⟩ | ⟨hall, hok⟩
  · exact ⟨fun _ => ⟨k, hk, hnone, herr⟩,
      fun hall => absurd (hall k hk) (by simp [hnone])⟩
  · exact ⟨fun ⟨k, hk, hnone⟩ => absurd (hall k hk) (by simp [hnone]),
      fun _ => hok⟩

/-- Witness for `from_cosmosis_camb_missing_keys`: the empty block fails
with a `KeyError`; the scenario block (all nine keys present) succeeds. -/
theorem from_cosmosis_camb_missing_keys_witness :
    (∃ k', k' ∈ requiredCosmosisKeys ∧
      dictLookup ([] : List (String × ℚ)) k' = Option.none ∧
      from_cosmosis_camb [] = .error (.keyError k')) ∧
    ∃ r, from_cosmosis_camb scenarioParams = .ok r :=
  ⟨(from_cosmosis_camb_missing_keys []).1
      ⟨"omega_c", by simp [requiredCosmosisKeys], rfl⟩,
   (from_cosmosis_camb_missing_keys scenarioParams).2 (by decide)⟩

/-- `StudentT` (student_t.py): a Gaussian-family likelihood whose shape
parameter `nu` is stored at construction.  `compute_chisq` is the member
inherited from `GaussFamily` (whose module is outside the embedded
sources); it is modelled as an opaque function field from a cosmology and
a parameter dict to the chi-square statistic. -/
structure StudentT (Stat Cosmo Params : Type) where
  statistics : List Stat
  compute_chisq : Cosmo → Params → ℝ
  nu : ℝ

/-- `StudentT.__init__(statistics, nu)`: stores the statistics list and
`nu`.  No validation of `nu` is performed — there is no failure path. -/
def StudentT.init {Stat Cosmo Params : Type} (statistics : List Stat)
    (compute_chisq : Cosmo → Params → ℝ) (nu : ℝ) :
    StudentT Stat Cosmo Params :=
  { statistics := statistics, compute_chisq := compute_chisq, nu := nu }

/-- `StudentT.compute_loglike` (student_t.py):
`-0.5 * nu * np.log(1.0 + chi2 / (nu - 1.0))` with
`chi2 = self.compute_chisq(cosmo, params)`. -/
noncomputable def StudentT.compute_loglike {Stat Cosmo Params : Type}
    (self : StudentT Stat Cosmo Params) (cosmo : Cosmo) (params : Params) :
    ℝ :=
  let chi2 := self.compute_chisq cosmo params;
  -0.5 * self.nu * Real.log (1.0 + chi2 / (self.nu - 1.0))

/-- C7: `compute_loglike` returns exactly
`-0.5 * nu * ln(1 + chi2/(nu - 1))` where `chi2` is the value of
`compute_chisq` at the same cosmology and parameters and `nu` is the shape
parameter stored at construction. -/
theorem studentT_compute_loglike_formula {Stat Cosmo Params : Type}
    (statistics : List Stat) (compute_chisq : Cosmo → Params → ℝ) (nu : ℝ)
    (cosmo : Cosmo) (params : Params) :
    (StudentT.init statistics compute_chisq nu).compute_loglike cosmo params =
      -0.5 * nu *
        Real.log (1 + compute_chisq cosmo params / (nu - 1)) := by
  norm_num [StudentT.compute_loglike, StudentT.init]

/-- C8: constructing a `StudentT` with `nu = 1 ≤ 1` succeeds and stores
`nu` unchanged — the `nu > 1` requirement is not enforced at construction
(there is no check in `__init__` at all). -/
theorem studentT_init_accepts_nu_le_one :
    (StudentT.init ([] : List Unit)
      (fun (_ : Unit) (_ : Unit) => (0 : ℝ)) 1).nu = 1 ∧ (1 : ℝ) ≤ 1 :=
  ⟨rfl, le_refl 1⟩

/-- A YAML-decoded Python value as the `parse` parameter loop inspects it:
a numeric scalar, a string, or a list.  In Python a `str` is never a
`list`, so the loop's `isinstance(val, list) and not isinstance(val, str)`
guard holds exactly for the `list` constructor. -/
inductive YamlVal where
  | scalar (q : ℚ)
  | str (s : String)
  | list (items : List YamlVal)

/-- Whether the value is a Python `list`. -/
def YamlVal.isList : YamlVal → Bool
  | .list _ => true
  | _ => false

/-- One iteration of the `data['parameters']` loop in parser.py:
`params[p] = val[1]` when `val` is a list (`val[1]` raises `IndexError`
when the list has fewer than two items, hence `Option`), and
`params[p] = val` otherwise. -/
def reduceSampled : YamlVal → Option YamlVal
  | .list items => items.get? 1
  | v => some v

/-- The whole `data['parameters']` rewrite loop of `parse` (parser.py):
every entry's value is passed through `reduceSampled`, keys unchanged,
insertion order preserved. -/
def parseParameters : List (String × YamlVal) → Option (List (String × YamlVal))
  | [] => some []
  | (k, v) :: rest => do
    let w ← reduceSampled v
    let tail ← parseParameters rest
    pure ((k, w) :: tail)

/-- C9: for every key of the parameter block processed by `parse`, a list
value is replaced by its element at index 1 (the middle of a
`[low, fiducial, high]` triple) and every non-list value is left
unchanged; keys and order are preserved. -/
theorem parse_parameters_fiducial (ps out : List (String × YamlVal))
    (h : parseParameters ps = some out) :
    out.length = ps.length ∧
    ∀ i (hi : i < ps.length) (ho : i < out.length),
      (out.get ⟨i, ho⟩).1 = (ps.get ⟨i, hi⟩).1 ∧
      (∀ items, (ps.get ⟨i, hi⟩).2 = .list items →
        items.get? 1 = some (out.get ⟨i, ho⟩).2) ∧
      ((ps.get ⟨i, hi⟩).2.isList = false →
        (out.get ⟨i, ho⟩).2 = (ps.get ⟨i, hi⟩).2) := by
  induction ps generalizing out with
  | nil =>
    simp only [parseParameters, Option.some.injEq] at h
    subst h
    exact ⟨rfl, fun i hi => absurd hi (by simp)⟩
  | cons kv rest ih =>
    obtain ⟨k, v⟩ := kv
    simp only [parseParameters, Option.bind_eq_bind, Option.bind_eq_some,
      Option.some.injEq] at h
    obtain ⟨w, hw, tail, htail, hout⟩ := h
    simp only [pure, Option.some.injEq] at hout
    subst hout
    obtain ⟨hlen, hspec⟩ := ih tail htail
    refine ⟨by simp [hlen], fun i hi ho => ?_⟩
    cases i with
    | zero =>
      refine ⟨rfl, fun items hv => ?_, fun hv => ?_⟩
      · have hv' : v = YamlVal.list items := hv
        rw [hv'] at hw
        show items.get? 1 = some w
        simpa [reduceSampled] using hw
      · have hv' : v.isList = false := hv
        show w = v
        cases v with
        | scalar q => simpa [reduceSampled] using hw.symm
        | str s => simpa [reduceSampled] using hw.symm
        | list items => simp [YamlVal.isList] at hv'
    | succ j =>
      have hj : j < rest.length := by simpa using hi
      have hj' : j < tail.length := by simpa using ho
      exact hspec j hj hj'

/-- Witness for `parse_parameters_fiducial` on a concrete block: a
`[low, fiducial, high]` triple and a plain scalar. -/
theorem parse_parameters_fiducial_witness :
    ([("omega_c", YamlVal.scalar 2), ("h0", YamlVal.scalar 7)] :
        List (String × YamlVal)).length =
      ([("omega_c", YamlVal.list
          [YamlVal.scalar 1, YamlVal.scalar 2, YamlVal.scalar 3]),
        ("h0", YamlVal.scalar 7)] : List (String × YamlVal)).length ∧
    ∀ i (hi : i < ([("omega_c", YamlVal.list
          [YamlVal.scalar 1, YamlVal.scalar 2, YamlVal.scalar 3]),
        ("h0", YamlVal.scalar 7)] : List (String × YamlVal)).length)
      (ho : i < ([("omega_c", YamlVal.scalar 2), ("h0", YamlVal.scalar 7)] :
        List (String × YamlVal)).length),
      (([("omega_c", YamlVal.scalar 2), ("h0", YamlVal.scalar 7)] :
          List (String × YamlVal)).get ⟨i, ho⟩).1 =
        (([("omega_c", YamlVal.list
            [YamlVal.scalar 1, YamlVal.scalar 2, YamlVal.scalar 3]),
          ("h0", YamlVal.scalar 7)] : List (String × YamlVal)).get
            ⟨i, hi⟩).1 ∧
      (∀ items, (([("omega_c", YamlVal.list
            [YamlVal.scalar 1, YamlVal.scalar 2, YamlVal.scalar 3]),
          ("h0", YamlVal.scalar 7)] : List (String × YamlVal)).get
            ⟨i, hi⟩).2 = .list items →
        items.get? 1 = some (([("omega_c", YamlVal.scalar 2),
          ("h0", YamlVal.scalar 7)] : List (String × YamlVal)).get
            ⟨i, ho⟩).2) ∧
      ((([("omega_c", YamlVal.list
            [YamlVal.scalar 1, YamlVal.scalar 2, YamlVal.scalar 3]),
          ("h0", YamlVal.scalar 7)] : List (String × YamlVal)).get
            ⟨i, hi⟩).2.isList = false →
        (([("omega_c", YamlVal.scalar 2), ("h0", YamlVal.scalar 7)] :
          List (String × YamlVal)).get ⟨i, ho⟩).2 =
        (([("omega_c", YamlVal.list
            [YamlVal.scalar 1, YamlVal.scalar 2, YamlVal.scalar 3]),
          ("h0", YamlVal.scalar 7)] : List (String × YamlVal)).get
            ⟨i, hi⟩).2) :=
  parse_parameters_fiducial
    [("omega_c", YamlVal.list
        [YamlVal.scalar 1, YamlVal.scalar 2, YamlVal.scalar 3]),
      ("h0", YamlVal.scalar 7)]
    [("omega_c", YamlVal.scalar 2), ("h0", YamlVal.scalar 7)] rfl

/-- The CosmoBase parameter block as `convert_cosmobase_to_ccl`
(calculator.py) inspects it.  `sigma_8`/`a_s` are `Option` because the code
tests key presence with `'sigma_8' in cosmo_base` / `'a_s' in cosmo_base`;
all other attributes are read unconditionally. -/
structure CosmoBase where
  omega_c : ℚ
  omega_b : ℚ
  omega_k : ℚ
  omega_n_rel : ℚ
  omega_n_mass : ℚ
  w0 : ℚ
  wa : ℚ
  h : ℚ
  n_s : ℚ
  sigma_8 : Option ℚ
  a_s : Option ℚ

/-- The `ccl.Parameters` argument bundle built by
`convert_cosmobase_to_ccl` (the CCL constructor itself is an external
oracle); exactly one of `sigma8`/`A_s` is passed. -/
structure CCLParameters where
  Omega_c : ℚ
  Omega_b : ℚ
  Omega_k : ℚ
  w0 : ℚ
  wa : ℚ
  n_s : ℚ
  h : ℚ
  sigma8 : Option ℚ
  A_s : Option ℚ
  deriving DecidableEq

/-- `convert_cosmobase_to_ccl` (calculator.py): rejects massive neutrinos
when `omega_n_rel + omega_n_mass` is truthy (nonzero); reads `sigma_8`/`a_s`
when present, substituting `0.0` when absent; then branches on Python
float TRUTHINESS of the two amplitudes (`if sigma8 and A_s`, `elif
sigma8`, `elif A_s`), so an amplitude equal to `0.0` counts as unsupplied.
(The neutrino message in the source reads "doesn't"; it is transliterated
here without the apostrophe.) -/
def convert_cosmobase_to_ccl (cosmo_base : CosmoBase) :
    Except PyErr CCLParameters :=
  if cosmo_base.omega_n_rel + cosmo_base.omega_n_mass ≠ 0 then
    .error (.valueError "cosmo_base does not handle massive neutrinos yet")
  else
    let sigma8 : ℚ := match cosmo_base.sigma_8 with
      | some v => v
      | Option.none => 0;
    let A_s : ℚ := match cosmo_base.a_s with
      | some v => v
      | Option.none => 0;
    if sigma8 ≠ 0 ∧ A_s ≠ 0 then
      .error (.valueError "Specifying both sigma8 and A_s: pick one")
    else if sigma8 ≠ 0 then
      .ok { Omega_c := cosmo_base.omega_c, Omega_b := cosmo_base.omega_b,
            Omega_k := cosmo_base.omega_k, w0 := cosmo_base.w0,
            wa := cosmo_base.wa, n_s := cosmo_base.n_s, h := cosmo_base.h,
            sigma8 := some sigma8, A_s := Option.none }
    else if A_s ≠ 0 then
      .ok { Omega_c := cosmo_base.omega_c, Omega_b := cosmo_base.omega_b,
            Omega_k := cosmo_base.omega_k, w0 := cosmo_base.w0,
            wa := cosmo_base.wa, n_s := cosmo_base.n_s, h := cosmo_base.h,
            sigma8 := Option.none, A_s := some A_s }
    else
      .error (.valueError "Need either sigma 8 or A_s in pyccl.")

/-- C10: `convert_cosmobase_to_ccl` decides amplitude presence by
truthiness, not key presence — a `sigma_8` (or `a_s`) key present with
value `0.0` behaves exactly as if the key were absent, and a block with
`sigma_8 = 0.0` and no `a_s` is rejected with the
"Need either sigma 8 or A_s" error rather than being passed to the
oracle. -/
theorem convert_cosmobase_truthiness (cb : CosmoBase) :
    (cb.sigma_8 = some 0 →
      convert_cosmobase_to_ccl cb =
        convert_cosmobase_to_ccl { cb with sigma_8 := Option.none }) ∧
    (cb.a_s = some 0 →
      convert_cosmobase_to_ccl cb =
        convert_cosmobase_to_ccl { cb with a_s := Option.none }) ∧
    (cb.omega_n_rel + cb.omega_n_mass = 0 → cb.sigma_8 = some 0 →
      cb.a_s = Option.none →
      convert_cosmobase_to_ccl cb =
        .error (.valueError "Need either sigma 8 or A_s in pyccl.")) := by
  refine ⟨fun hs => ?_, fun ha => ?_, fun hn hs ha => ?_⟩
  · simp [convert_cosmobase_to_ccl, hs]
  · simp [convert_cosmobase_to_ccl, ha]
  · simp [convert_cosmobase_to_ccl, hn, hs, ha]

/-- A block with `sigma_8` present but zero and no `a_s`. -/
def cbSigmaZero : CosmoBase :=
  { omega_c := 0.25, omega_b := 0.05, omega_k := 0, omega_n_rel := 0,
    omega_n_mass := 0, w0 := -1, wa := 0, h := 0.7, n_s := 0.96,
    sigma_8 := some 0, a_s := Option.none }

/-- A block with `a_s` present but zero and a usable `sigma_8`. -/
def cbASZero : CosmoBase :=
  { omega_c := 0.25, omega_b := 0.05, omega_k := 0, omega_n_rel := 0,
    omega_n_mass := 0, w0 := -1, wa := 0, h := 0.7, n_s := 0.96,
    sigma_8 := some 0.8, a_s := some 0 }

/-- Witness for `convert_cosmobase_truthiness` at concrete blocks. -/
theorem convert_cosmobase_truthiness_witness :
    (convert_cosmobase_to_ccl cbSigmaZero =
      convert_cosmobase_to_ccl { cbSigmaZero with sigma_8 := Option.none }) ∧
    (convert_cosmobase_to_ccl cbASZero =
      convert_cosmobase_to_ccl { cbASZero with a_s := Option.none }) ∧
    (convert_cosmobase_to_ccl cbSigmaZero =
      .error (.valueError "Need either sigma 8 or A_s in pyccl.")) :=
  ⟨(convert_cosmobase_truthiness cbSigmaZero).1 rfl,
   (convert_cosmobase_truthiness cbASZero).2.1 rfl,
   (convert_cosmobase_truthiness cbSigmaZero).2.2 (by simp [cbSigmaZero])
     rfl rfl⟩

/-- The capability variant of a constructed Systematic, as
`setup_systematics` (calculator.py) partitions the table with
`isinstance` checks.  `Systematic.from_info` lives in the external
systematics module; the embedding starts from the constructed table. -/
inductive SystematicVariant where
  | cosmologyS
  | sourceS
  | outputS
  deriving DecidableEq

/-- `self.systematics.get(sys_name)` membership in the full table
(an association list mirroring the insertion-ordered dict). -/
def sysLookup : List (String × SystematicVariant) → String →
    Option SystematicVariant
  | [], _ => Option.none
  | (k', v) :: rest, k => if k = k' then some v else sysLookup rest k

/-- The keys of `self.source_systematics`: table entries whose constructed
systematic is a `SourceSystematic`. -/
def sourceSystematicNames (table : List (String × SystematicVariant)) :
    List String :=
  (table.filter fun p => decide (p.2 = SystematicVariant.sourceS)).map
    Prod.fst

/-- The two fatal `ValueError`s `setup_sources` can raise, tagged with the
names the messages carry. -/
inductive TwoPointError where
  | unresolvedSystematic (sysName sourceName : String)
  | unusedSystematic (sysName : String)
  deriving DecidableEq

/-- The inner loop of `setup_sources` for one source: resolve each
referenced systematic name against the table, raising the unresolved
error (naming the systematic and the source) at the first miss, and
adding each resolved name to the used set. -/
def attachSystematics (table : List (String × SystematicVariant))
    (sourceName : String) :
    List String → List String → Except TwoPointError (List String)
  | [], used => .ok used
  | s :: rest, used =>
    match sysLookup table s with
    | Option.none => .error (.unresolvedSystematic s sourceName)
    | some _ => attachSystematics table sourceName rest (s :: used)

/-- The outer loop of `setup_sources`: process each declared source in
order, threading the used-systematics set.  `make_source` lives in the
external sources module and does not affect the validation, so only the
name/systematics data is carried. -/
def buildSources (table : List (String × SystematicVariant)) :
    List (String × List String) → List String →
    Except TwoPointError (List String)
  | [], used => .ok used
  | (name, sysNames) :: rest, used =>
    match attachSystematics table name sysNames used with
    | .error e => .error e
    | .ok used2 => buildSources table rest used2

/-- The final loop of `setup_sources`: every `source_systematics` key must
appear in the used set; the first one that does not raises the unused
error. -/
def checkUnused (used : List String) :
    List String → Except TwoPointError Unit
  | [] => .ok ()
  | s :: rest =>
    if s ∈ used then checkUnused used rest
    else .error (.unusedSystematic s)

/-- `TwoPointTheoryCalculator.setup_sources` (calculator.py), starting
from the constructed systematics table and the declared sources
(name and referenced-systematics list, in insertion order). -/
def setup_sources (table : List (String × SystematicVariant))
    (sources : List (String × List String)) : Except TwoPointError Unit :=
  match buildSources table sources [] with
  | .error e => .error e
  | .ok used => checkUnused used (sourceSystematicNames table)

/-- If every referenced name resolves, `attachSystematics` succeeds and
the returned used set is the references plus the incoming set. -/
theorem attachSystematics_ok (table : List (String × SystematicVariant))
    (n : String) (ss used : List String)
    (h : ∀ s ∈ ss, (sysLookup table s).isSome) :
    ∃ u, attachSystematics table n ss used = .ok u ∧
      ∀ x, x ∈ u ↔ x ∈ ss ∨ x ∈ used := by
  induction ss generalizing used with
  | nil => exact ⟨used, rfl, by simp [attachSystematics]⟩
  | cons s rest ih =>
    cases hl : sysLookup table s with
    | none =>
      have := h s (by simp)
      rw [hl] at this
      simp at this
    | some v =>
      obtain ⟨u, hu, hmem⟩ := ih (s :: used) (fun x hx => h x (by simp [hx]))
      refine ⟨u, ?_, fun x => ?_⟩
      · simpa [attachSystematics, hl] using hu
      · rw [hmem x]
        simp [or_comm, or_assoc, or_left_comm]

/-- If some referenced name does not resolve, `attachSystematics` raises
the unresolved error for such a name and this source. -/
theorem attachSystematics_error (table : List (String × SystematicVariant))
    (n : String) (ss used : List String)
    (h : ∃ s ∈ ss, sysLookup table s = Option.none) :
    ∃ s, attachSystematics table n ss used =
        .error (.unresolvedSystematic s n) ∧
      s ∈ ss ∧ sysLookup table s = Option.none := by
  induction ss generalizing used with
  | nil => simp at h
  | cons s rest ih =>
    cases hl : sysLookup table s with
    | none => exact ⟨s, by simp [attachSystematics, hl], by simp, hl⟩
    | some v =>
      obtain ⟨s', hs', hnone⟩ := h
      rcases List.mem_cons.mp hs' with rfl | hmem
      · rw [hl] at hnone; exact absurd hnone (by simp)
      · obtain ⟨s'', hrun, hin, hn⟩ := ih (s :: used) ⟨s', hmem, hnone⟩
        exact ⟨s'', by simpa [attachSystematics, hl] using hrun,
          by simp [hin], hn⟩

/-- If every source's references resolve, `buildSources` succeeds and the
final used set is exactly the referenced names plus the incoming set. -/
theorem buildSources_ok (table : List (String × SystematicVariant))
    (sources : List (String × List String)) (used : List String)
    (h : ∀ src ∈ sources, ∀ s ∈ src.2, (sysLookup table s).isSome) :
    ∃ u, buildSources table sources used = .ok u ∧
      ∀ x, x ∈ u ↔ (∃ src ∈ sources, x ∈ src.2) ∨ x ∈ used := by
  induction sources generalizing used with
  | nil => exact ⟨used, rfl, by simp [buildSources]⟩
  | cons src rest ih =>
    obtain ⟨name, sysNames⟩ := src
    obtain ⟨u1, hu1, hmem1⟩ := attachSystematics_ok table name sysNames used
      (fun s hs => h (name, sysNames) (by simp) s hs)
    obtain ⟨u, hu, hmem⟩ := ih u1 (fun src hsrc => h src (by simp [hsrc]))
    refine ⟨u, by simp [buildSources, hu1, hu], fun x => ?_⟩
    rw [hmem x]
    constructor
    · rintro (⟨src', hsrc', hx⟩ | hx)
      · exact Or.inl ⟨src', by simp [hsrc'], hx⟩
      · rcases (hmem1 x).mp hx with hx' | hx'
        · exact Or.inl ⟨(name, sysNames), by simp, hx'⟩
        · exact Or.inr hx'
    · rintro (⟨src', hsrc', hx⟩ | hx)
      · rcases List.mem_cons.mp hsrc' with rfl | hsrc''
        · exact Or.inr ((hmem1 x).mpr (Or.inl hx))
        · exact Or.inl ⟨src', hsrc'', hx⟩
      · exact Or.inr ((hmem1 x).mpr (Or.inr hx))

/-- If some source references an unresolvable name, `buildSources` raises
the unresolved error, naming such a systematic and a source that
references it. -/
theorem buildSources_error (table : List (String × SystematicVariant))
    (sources : List (String × List String)) (used : List String)
    (h : ∃ src ∈ sources, ∃ s ∈ src.2, sysLookup table s = Option.none) :
    ∃ s n, buildSources table sources used =
        .error (.unresolvedSystematic s n) ∧
      sysLookup table s = Option.none ∧
      ∃ syss, (n, syss) ∈ sources ∧ s ∈ syss := by
  induction sources generalizing used with
  | nil => simp at h
  | cons src rest ih =>
    obtain ⟨name, sysNames⟩ := src
    by_cases hh : ∃ s ∈ sysNames, sysLookup table s = Option.none
    · obtain ⟨s, hrun, hin, hnone⟩ :=
        attachSystematics_error table name sysNames used hh
      exact ⟨s, name, by simp [buildSources, hrun], hnone,
        ⟨sysNames, by simp, hin⟩⟩
    · have hall : ∀ s ∈ sysNames, (sysLookup table s).isSome := by
        intro s hs
        rcases ho : sysLookup table s with _ | v
        · exact absurd ⟨s, hs, ho⟩ hh
        · simp
      obtain ⟨u1, hu1, -⟩ :=
        attachSystematics_ok table name sysNames used hall
      obtain ⟨src', hsrc', s', hs', hnone⟩ := h
      rcases List.mem_cons.mp hsrc' with rfl | hmem
      · exact absurd ⟨s', hs', hnone⟩ hh
      · obtain ⟨s'', n'', hrun, hn, syss, hsyss, hin⟩ :=
          ih u1 ⟨src', hmem, s', hs', hnone⟩
        exact ⟨s'', n'', by simp [buildSources, hu1, hrun], hn,
          ⟨syss, by simp [hsyss], hin⟩⟩

/-- If some name in the list is missing from the used set, `checkUnused`
raises the unused error for such a name. -/
theorem checkUnused_error (used names : List String)
    (h : ∃ s ∈ names, s ∉ used) :
    ∃ s, checkUnused used names = .error (.unusedSystematic s) ∧
      s ∈ names ∧ s ∉ used := by
  induction names with
  | nil => simp at h
  | cons s rest ih =>
    by_cases hs : s ∈ used
    · obtain ⟨s', hs', hnot⟩ := h
      rcases List.mem_cons.mp hs' with rfl | hmem
      · exact absurd hs hnot
      · obtain ⟨s'', hrun, hin, hn⟩ := ih ⟨s', hmem, hnot⟩
        exact ⟨s'', by simpa [checkUnused, hs] using hrun, by simp [hin], hn⟩
    · exact ⟨s, by simp [checkUnused, hs], by simp, hs⟩

/-- C3: `setup_sources` enforces both completeness invariants fatally:
if some source references a systematic name absent from the table, it
raises the unresolved error naming such a systematic and a source that
references it; and if all references resolve but some declared
`SourceSystematic` is referenced by no source, it raises the unused error
naming such a systematic. -/
theorem setup_sources_validates (table : List (String × SystematicVariant))
    (sources : List (String × List String)) :
    ((∃ src ∈ sources, ∃ s ∈ src.2, sysLookup table s = Option.none) →
      ∃ s n, setup_sources table sources =
          .error (.unresolvedSystematic s n) ∧
        sysLookup table s = Option.none ∧
        ∃ syss, (n, syss) ∈ sources ∧ s ∈ syss)
    ∧ ((∀ src ∈ sources, ∀ s ∈ src.2, (sysLookup table s).isSome) →
      (∃ s ∈ sourceSystematicNames table, ∀ src ∈ sources, s ∉ src.2) →
      ∃ s, setup_sources table sources = .error (.unusedSystematic s) ∧
        s ∈ sourceSystematicNames table ∧ ∀ src ∈ sources, s ∉ src.2) := by
  constructor
  · intro h
    obtain ⟨s, n, hrun, hnone, syss, hsyss, hin⟩ :=
      buildSources_error table sources [] h
    exact ⟨s, n, by simp [setup_sources, hrun], hnone, syss, hsyss, hin⟩
  · intro hres hunused
    obtain ⟨u, hu, hmem⟩ := buildSources_ok table sources [] hres
    obtain ⟨s0, hs0, hnotref⟩ := hunused
    have hs0u : s0 ∉ u := by
      rw [hmem s0]
      rintro (⟨src, hsrc, hx⟩ | hx)
      · exact hnotref src hsrc hx
      · simp at hx
    obtain ⟨s, hrun, hin, hnotu⟩ :=
      checkUnused_error u (sourceSystematicNames table) ⟨s0, hs0, hs0u⟩
    refine ⟨s, by simp [setup_sources, hu, hrun], hin, fun src hsrc hx => ?_⟩
    exact hnotu ((hmem s).mpr (Or.inl ⟨src, hsrc, hx⟩))

/-- Witness for `setup_sources_validates`: a source referencing an
undeclared systematic raises the unresolved error; a declared
`SourceSystematic` that no source references raises the unused error. -/
theorem setup_sources_validates_witness :
    (∃ s n, setup_sources [("bias", SystematicVariant.sourceS)]
        [("lens", ["shift"])] = .error (.unresolvedSystematic s n) ∧
      sysLookup [("bias", SystematicVariant.sourceS)] s = Option.none ∧
      ∃ syss, (n, syss) ∈ [("lens", ["shift"])] ∧ s ∈ syss) ∧
    (∃ s, setup_sources [("bias", SystematicVariant.sourceS)]
        ([("lens", [])] : List (String × List String)) =
        .error (.unusedSystematic s) ∧
      s ∈ sourceSystematicNames [("bias", SystematicVariant.sourceS)] ∧
      ∀ src ∈ ([("lens", [])] : List (String × List String)),
        s ∉ src.2) :=
  ⟨(setup_sources_validates _ _).1 (by decide),
   (setup_sources_validates _ _).2 (by decide) (by decide)⟩
